import Mathlib

/-
Verification of the Goal Enforcement Engine of the LeetCode Forcer
browser extension.  The definitions below are a shallow embedding of the
JavaScript sources:

  - utils/storage.js        : GoalState record, DEFAULTS, resetDailyState
  - background/service_worker.js (debounced revision) :
      isUrlAllowed, evaluateTab, updateStreak, checkAndHandleGoalMet,
      handleSolveDetected, lazyPollIfNeeded, verifySolveCount,
      forceSync, activateBypass, bypass-expiry alarm handler
  - utils/api.js            : fetchTodaySolves

Conventions of the embedding: timestamps are Int milliseconds, UTC dates
are strings of the shape YYYY-MM-DD, JavaScript null becomes Option.none,
the external URL parser is abstracted as an optional hostname carried by
the input, and state writes through chrome.storage.local become pure
record updates.
-/

namespace LCForcer

/-- The persisted GoalState record, one field per key of the DEFAULTS
object in utils/storage.js. -/
structure GoalState where
  leetcodeUsername : String
  dailyGoal : Nat
  requireDaily : Bool
  notifyOnComplete : Bool
  solvesToday : Nat
  dailySolved : Bool
  bypassUsed : Bool
  bypassExpiresAt : Option Int
  lastPollDate : Option String
  solvedSlugs : List String
  loggedIn : Option Bool
  dailySlug : Option String
  dailyTitle : Option String
  dailyLink : Option String
  currentStreak : Nat
  longestStreak : Nat
  lastGoalMetDate : Option String
  rewardMinutesPerSolve : Nat
  rewardExpiresAt : Option Int
  lastPollTimestamp : Int
deriving DecidableEq, Repr

/-- The DEFAULTS object of utils/storage.js: the state created on first
install. -/
def DEFAULTS : GoalState where
  leetcodeUsername := ""
  dailyGoal := 1
  requireDaily := false
  notifyOnComplete := true
  solvesToday := 0
  dailySolved := false
  bypassUsed := false
  bypassExpiresAt := none
  lastPollDate := none
  solvedSlugs := []
  loggedIn := none
  dailySlug := none
  dailyTitle := none
  dailyLink := none
  currentStreak := 0
  longestStreak := 0
  lastGoalMetDate := none
  rewardMinutesPerSolve := 60
  rewardExpiresAt := none
  lastPollTimestamp := 0

/-- resetDailyState of utils/storage.js: the partial setState performed
at every UTC midnight. -/
def resetDailyState (s : GoalState) : GoalState :=
  { s with
    solvesToday := 0
    dailySolved := false
    bypassUsed := false
    bypassExpiresAt := none
    rewardExpiresAt := none
    lastPollDate := none
    solvedSlugs := []
    dailySlug := none
    dailyTitle := none
    dailyLink := none }

-- ── URL allow-list (background/service_worker.js) ──────────────────────

/-- ALLOWED_HOSTNAMES of background/service_worker.js. -/
def ALLOWED_HOSTNAMES : List String :=
  [ "leetcode.com"
  , "accounts.google.com"
  , "neetcode.io"
  , "takeuforward.org"
  , "geeksforgeeks.org"
  , "cp-algorithms.com"
  , "codeforces.com"
  , "interviewbit.com"
  , "algo.monster"
  , "lintcode.com"
  , "codingninjas.com"
  , "algoexpert.io"
  , "interviewing.io"
  , "hackerrank.com"
  , "github.com" ]

/-- ALLOWED_PREFIXES of background/service_worker.js: URL scheme
beginnings that are never blocked. -/
def ALLOWED_PREFIXES : List String :=
  [ "chrome://"
  , "chrome-extension://"
  , "arc://"
  , "brave://"
  , "edge://"
  , "about:"
  , "data:"
  , "javascript:"
  , "moz-extension://" ]

/-- Abstraction of the input to isUrlAllowed.  raw is the address string
the tab reports; parsed is the hostname the external URL parser
(JavaScript new URL) yields for it, or none when the constructor throws
because the address is not a structured URL. -/
structure UrlInput where
  raw : String
  parsed : Option String
deriving DecidableEq, Repr

/-- Character-level model of the JavaScript startsWith test. -/
def strBeginsWith (s p : String) : Bool :=
  p.toList.isPrefixOf s.toList

/-- The leading-www stripping performed inside isUrlAllowed (JavaScript
hostname.slice(4) after a positive startsWith test). -/
def stripWww (host : String) : String :=
  if strBeginsWith host "www." then String.mk (host.toList.drop 4) else host

/-- isUrlAllowed of background/service_worker.js.  A falsy (empty) url,
any url starting with an allowed scheme, and any url whose parse fails
are allowed; otherwise the www-stripped hostname is looked up in
ALLOWED_HOSTNAMES. -/
def isUrlAllowed (u : UrlInput) : Bool :=
  if u.raw = "" then true
  else if ALLOWED_PREFIXES.any (fun p => strBeginsWith u.raw p) then true
  else
    match u.parsed with
    | none => true
    | some host => ALLOWED_HOSTNAMES.contains (stripWww host)

/-- Outcome of evaluateTab: either the navigation is left alone or the
tab is redirected to the block page. -/
inductive PolicyDecision
  | ALLOW
  | REDIRECT_TO_BLOCK_PAGE
deriving DecidableEq, Repr

/-- The goal-met predicate used throughout background/service_worker.js. -/
def goalMetPred (s : GoalState) : Bool :=
  decide (s.dailyGoal ≤ s.solvesToday) && (!s.requireDaily || s.dailySolved)

/-- The bypass-active predicate of evaluateTab. -/
def bypassActive (s : GoalState) (now : Int) : Bool :=
  match s.bypassExpiresAt with
  | none => false
  | some e => decide (now < e)

/-- evaluateTab of background/service_worker.js as a pure decision
function: a redirect to blocked.html happens exactly when the result is
REDIRECT_TO_BLOCK_PAGE. -/
def evaluateTab (u : UrlInput) (s : GoalState) (now : Int) : PolicyDecision :=
  if isUrlAllowed u then PolicyDecision.ALLOW
  else if s.leetcodeUsername = "" then PolicyDecision.ALLOW
  else if goalMetPred s || bypassActive s now then PolicyDecision.ALLOW
  else PolicyDecision.REDIRECT_TO_BLOCK_PAGE

-- ── Streak tracking ────────────────────────────────────────────────────

/-- updateStreak of background/service_worker.js; today and yesterday
are the values of todayUTC() and yesterdayUTC(). -/
def updateStreak (s : GoalState) (today yesterday : String) : GoalState :=
  if s.lastGoalMetDate = some today then s
  else
    let newStreak :=
      if s.lastGoalMetDate = some yesterday then s.currentStreak + 1 else 1
    { s with
      currentStreak := newStreak
      longestStreak := max newStreak s.longestStreak
      lastGoalMetDate := some today }

/-- checkAndHandleGoalMet of background/service_worker.js: prev is the
state read before the mutation, cur the state read after it.  The
notification branch has no state effect and is omitted. -/
def checkAndHandleGoalMet (prev cur : GoalState) (today yesterday : String) :
    GoalState :=
  if !goalMetPred prev && goalMetPred cur then updateStreak cur today yesterday
  else cur

/-- handleSolveDetected of background/service_worker.js (the purely
local deduplicating revision): a slug already counted today is
discarded, otherwise it is appended, the counter becomes the length of
the new list, dailySolved is raised when the daily challenge was just
solved, and the goal transition is checked against the previous state. -/
def handleSolveDetected (s : GoalState) (questionSlug today yesterday : String) :
    GoalState :=
  if s.solvedSlugs.contains questionSlug then s
  else
    let newSlugs := s.solvedSlugs ++ [questionSlug]
    let newDailySolved :=
      if s.requireDaily && s.dailySlug = some questionSlug then true
      else s.dailySolved
    let s1 :=
      { s with
        solvesToday := newSlugs.length
        solvedSlugs := newSlugs
        dailySolved := newDailySolved
        lastPollDate := some today }
    checkAndHandleGoalMet s s1 today yesterday

-- ── Remote reconciliation ──────────────────────────────────────────────

/-- Result of fetchTodaySolves as consumed by the service worker. -/
structure RemoteResult where
  count : Nat
  slugs : List String
  loggedIn : Bool
deriving DecidableEq, Repr

/-- Result of fetchDailyChallenge. -/
structure DailyChallenge where
  slug : String
  title : String
  link : String
deriving DecidableEq, Repr

/-- Insertion-order deduplication, the observable content of the
JavaScript idiom [...new Set(list)]. -/
def dedupJS (l : List String) : List String :=
  l.foldl (fun acc x => if acc.contains x then acc else acc ++ [x]) []

/-- MIN_POLL_INTERVAL_MS of background/service_worker.js. -/
def MIN_POLL_INTERVAL_MS : Int := 5 * 60 * 1000

/-- canPollNow of background/service_worker.js. -/
def canPollNow (s : GoalState) (now : Int) : Bool :=
  decide (MIN_POLL_INTERVAL_MS ≤ now - s.lastPollTimestamp)

/-- stampPollTime of background/service_worker.js. -/
def stampPollTime (s : GoalState) (now : Int) : GoalState :=
  { s with lastPollTimestamp := now }

/-- verifySolveCount of background/service_worker.js (fired by the
debounced verify alarm).  r is the outcome of fetchTodaySolves, none
meaning the call threw; the time stamp is written before the fetch, so
it survives a thrown fetch. -/
def verifySolveCount (s : GoalState) (r : Option RemoteResult)
    (today : String) (now : Int) : GoalState :=
  if s.leetcodeUsername = "" then s
  else if !canPollNow s now then s
  else
    let s0 := stampPollTime s now
    match r with
    | none => s0
    | some res =>
      if !res.loggedIn then s0
      else
        let mergedSlugs := dedupJS (res.slugs ++ s0.solvedSlugs)
        { s0 with
          solvesToday := max res.count mergedSlugs.length
          solvedSlugs := mergedSlugs
          lastPollDate := some today
          loggedIn := some true
          dailySolved :=
            match s0.dailySlug with
            | some d => mergedSlugs.contains d
            | none => s0.dailySolved }

/-- forceSync of background/service_worker.js (popup Sync button), with
daily the outcome of fetchDailyChallenge and r the outcome of
fetchTodaySolves.  Note that on a logged-in result it writes the remote
count and slug list directly, without merging in local solvedSlugs. -/
def forceSync (s : GoalState) (daily : Option DailyChallenge)
    (r : RemoteResult) (today : String) : GoalState :=
  if s.leetcodeUsername = "" then s
  else
    let s1 :=
      match daily with
      | some d =>
        { s with
          dailySlug := some d.slug
          dailyTitle := some d.title
          dailyLink := some d.link }
      | none => s
    if r.loggedIn then
      { s1 with
        solvesToday := r.count
        solvedSlugs := r.slugs
        lastPollDate := some today
        loggedIn := some true
        dailySolved :=
          match s1.dailySlug with
          | some d => r.slugs.contains d
          | none => false }
    else s1

-- ── Lazy poll gate and trace ───────────────────────────────────────────

/-- One observable step of lazyPollIfNeeded, in execution order. -/
inductive PollAction
  | stampTime (t : Int)
  | fetchChallenge
  | fetchSolves
deriving DecidableEq, Repr

/-- The gate of lazyPollIfNeeded: the body is skipped only when an
account is missing, or when we already polled today AND the five-minute
cooldown has not yet elapsed.  A new UTC day always passes the gate. -/
def lazyPollRuns (s : GoalState) (today : String) (now : Int) : Bool :=
  if s.leetcodeUsername = "" then false
  else if s.lastPollDate = some today && !canPollNow s now then false
  else true

/-- The ordered action trace of one lazyPollIfNeeded attempt: when the
gate passes, the poll-time stamp is written first, then the two network
calls run; when it denies, nothing happens. -/
def lazyPollTrace (s : GoalState) (today : String) (now : Int) :
    List PollAction :=
  if lazyPollRuns s today now then
    [PollAction.stampTime now, PollAction.fetchChallenge, PollAction.fetchSolves]
  else []

/-- The state effect of lazyPollIfNeeded given the two network results. -/
def lazyPollApply (s : GoalState) (daily : Option DailyChallenge)
    (r : RemoteResult) (today : String) (now : Int) : GoalState :=
  if !lazyPollRuns s today now then s
  else
    let s0 := stampPollTime s now
    let s1 :=
      match daily with
      | some d =>
        { s0 with
          dailySlug := some d.slug
          dailyTitle := some d.title
          dailyLink := some d.link }
      | none => s0
    { s1 with
      solvesToday := r.count
      solvedSlugs := r.slugs
      lastPollDate := some today
      loggedIn := some r.loggedIn
      dailySolved :=
        match s1.dailySlug with
        | some d => r.slugs.contains d
        | none => s1.dailySolved }

-- ── Emergency bypass ───────────────────────────────────────────────────

/-- The structured result object returned by activateBypass. -/
structure BypassResult where
  success : Bool
  reason : Option String
  expiresAt : Option Int
deriving DecidableEq, Repr

/-- activateBypass of background/service_worker.js: returns the result
object together with the state after the call. -/
def activateBypass (s : GoalState) (now : Int) : BypassResult × GoalState :=
  if s.bypassUsed then
    ({ success := false, reason := some "Already used today", expiresAt := none }, s)
  else
    let expiresAt := now + 3 * 60 * 60 * 1000
    ({ success := true, reason := none, expiresAt := some expiresAt },
     { s with bypassUsed := true, bypassExpiresAt := some expiresAt })

/-- The ALARM_BYPASS_EXPIRY branch of the alarm handler: clears the
expiry timestamp and nothing else. -/
def bypassExpiryAlarm (s : GoalState) : GoalState :=
  { s with bypassExpiresAt := none }

-- ── Remote query client (utils/api.js) ─────────────────────────────────

/-- One entry of recentAcSubmissionList as used by fetchTodaySolves;
solveDate abstracts the UTC date string computed from the submission
timestamp. -/
structure RawSubmission where
  titleSlug : String
  solveDate : String
deriving DecidableEq, Repr

/-- The observable outcome of the HTTP exchange inside fetchTodaySolves:
the fetch itself rejects, or a response arrives with a status code and,
when the body parses as JSON, the submission list (an absent or
malformed data field becomes the empty list in the source, so body =
none stands exactly for a json() call that throws). -/
inductive FetchOutcome
  | networkError
  | httpResponse (status : Nat) (body : Option (List RawSubmission))
deriving DecidableEq, Repr

/-- The record fetchTodaySolves resolves with. -/
structure SolveResult where
  count : Nat
  slugs : List String
  loggedIn : Bool
deriving DecidableEq, Repr

/-- fetchTodaySolves of utils/api.js.  It is a total function: the
surrounding try/catch converts every thrown failure into the record
with count 0, no slugs, and loggedIn false, and 401/403 responses are
mapped to the same record before the body is read. -/
def fetchTodaySolves (o : FetchOutcome) (todayU : String) : SolveResult :=
  match o with
  | FetchOutcome.networkError => { count := 0, slugs := [], loggedIn := false }
  | FetchOutcome.httpResponse status body =>
    if status == 403 || status == 401 then
      { count := 0, slugs := [], loggedIn := false }
    else
      match body with
      | none => { count := 0, slugs := [], loggedIn := false }
      | some list =>
        let todaySolves := list.filter (fun sub => sub.solveDate == todayU)
        let slugSet := dedupJS (todaySolves.map (fun sub => sub.titleSlug))
        { count := slugSet.length, slugs := slugSet, loggedIn := true }

/-- Whether the HTTP outcome is an explicit authentication rejection
(status 401 or 403). -/
def isAuthRejection : FetchOutcome → Bool
  | FetchOutcome.httpResponse status _ => status == 403 || status == 401
  | _ => false

-- ── Engine operations for reachability ─────────────────────────────────

/-- One state-mutating operation of the engine, each carrying the
environment inputs (dates, clock, network results) of its invocation. -/
inductive EngineOp
  | solveDetected (slug today yesterday : String)
  | verify (r : Option RemoteResult) (today : String) (now : Int)
  | sync (daily : Option DailyChallenge) (r : RemoteResult) (today : String)
  | poll (daily : Option DailyChallenge) (r : RemoteResult) (today : String) (now : Int)
  | dailyReset
  | bypass (now : Int)
  | bypassExpiry
  | goalMetFire (today yesterday : String)

/-- The state transition of one engine operation. -/
def engineStep (s : GoalState) : EngineOp → GoalState
  | EngineOp.solveDetected slug t y => handleSolveDetected s slug t y
  | EngineOp.verify r t n => verifySolveCount s r t n
  | EngineOp.sync d r t => forceSync s d r t
  | EngineOp.poll d r t n => lazyPollApply s d r t n
  | EngineOp.dailyReset => resetDailyState s
  | EngineOp.bypass n => (activateBypass s n).2
  | EngineOp.bypassExpiry => bypassExpiryAlarm s
  | EngineOp.goalMetFire t y => updateStreak s t y

/-- Run a sequence of engine operations from a state. -/
def runOps (s : GoalState) (ops : List EngineOp) : GoalState :=
  ops.foldl engineStep s

/-- The streak-bound invariant of the data model. -/
def streakInv (s : GoalState) : Prop :=
  s.currentStreak ≤ s.longestStreak

-- ── Example states used by concrete witnesses ─────────────────────────

/-- A configured state whose goal is met (one solve against the default
goal of one). -/
def exConfigured : GoalState :=
  { DEFAULTS with leetcodeUsername := "alice", solvesToday := 1,
                  solvedSlugs := ["two-sum"] }

/-- A configured state that met the goal yesterday with a four-day
streak. -/
def exStreak4 : GoalState :=
  { DEFAULTS with leetcodeUsername := "alice", currentStreak := 4,
                  longestStreak := 4, lastGoalMetDate := some "2026-10-10" }

/-- A configured state whose last goal-met day lies two days back. -/
def exStreakStale : GoalState :=
  { DEFAULTS with leetcodeUsername := "alice", currentStreak := 4,
                  longestStreak := 4, lastGoalMetDate := some "2026-10-09" }

/-- A configured state that already consumed its daily bypass. -/
def exBypassUsed : GoalState :=
  { DEFAULTS with leetcodeUsername := "alice", bypassUsed := true }

/-- The local state of the merge-monotonicity example: slugs a and b
already detected locally. -/
def exLocalAB : GoalState :=
  { DEFAULTS with leetcodeUsername := "alice", solvesToday := 2,
                  solvedSlugs := ["a", "b"] }

/-- The remote result of the merge-monotonicity example: the remote
source reports b and c. -/
def exRemoteBC : RemoteResult :=
  { count := 2, slugs := ["b", "c"], loggedIn := true }

/-- A configured state that last polled on 2026-10-11. -/
def exPolled : GoalState :=
  { DEFAULTS with leetcodeUsername := "alice",
                  lastPollDate := some "2026-10-11" }

-- ── Helper lemmas ─────────────────────────────────────────────────────

lemma mem_dedup_foldl (l acc : List String) (x : String) :
    x ∈ l.foldl (fun a b => if a.contains b then a else a ++ [b]) acc ↔
      x ∈ acc ∨ x ∈ l := by
  induction l generalizing acc with
  | nil => simp
  | cons y t ih =>
    simp only [List.foldl_cons]
    rw [ih]
    by_cases hy : acc.contains y = true
    · have hmem : y ∈ acc := List.elem_iff.mp hy
      simp only [hy, if_pos]
      constructor
      · rintro (h | h)
        · exact Or.inl h
        · exact Or.inr (List.mem_cons_of_mem _ h)
      · rintro (h | h)
        · exact Or.inl h
        · rcases List.mem_cons.mp h with rfl | h
          · exact Or.inl hmem
          · exact Or.inr h
    · simp only [hy, if_neg, Bool.false_eq_true, not_false_iff, if_false]
      simp [List.mem_append, List.mem_cons]
      tauto

lemma mem_dedupJS (l : List String) (x : String) :
    x ∈ dedupJS l ↔ x ∈ l := by
  simpa [dedupJS] using mem_dedup_foldl l [] x

lemma streakInv_updateStreak (s : GoalState) (t y : String)
    (h : streakInv s) : streakInv (updateStreak s t y) := by
  unfold updateStreak
  split
  · exact h
  · exact Nat.le_max_left _ _

lemma streakInv_checkGoal (prev cur : GoalState) (t y : String)
    (h : streakInv cur) : streakInv (checkAndHandleGoalMet prev cur t y) := by
  unfold checkAndHandleGoalMet
  split
  · exact streakInv_updateStreak _ _ _ h
  · exact h

lemma streakInv_handleSolve (s : GoalState) (slug t y : String)
    (h : streakInv s) : streakInv (handleSolveDetected s slug t y) := by
  unfold handleSolveDetected
  split
  · exact h
  · exact streakInv_checkGoal _ _ _ _ h

lemma streakInv_engineStep (s : GoalState) (op : EngineOp)
    (h : streakInv s) : streakInv (engineStep s op) := by
  cases op with
  | solveDetected slug t y => exact streakInv_handleSolve s slug t y h
  | verify r t n =>
    show streakInv (verifySolveCount s r t n)
    unfold verifySolveCount stampPollTime
    repeat' split
    all_goals exact h
  | sync d r t =>
    show streakInv (forceSync s d r t)
    unfold forceSync
    repeat' split
    all_goals exact h
  | poll d r t n =>
    show streakInv (lazyPollApply s d r t n)
    unfold lazyPollApply stampPollTime
    repeat' split
    all_goals exact h
  | dailyReset => exact h
  | bypass n =>
    show streakInv (activateBypass s n).2
    unfold activateBypass
    split
    all_goals exact h
  | bypassExpiry => exact h
  | goalMetFire t y => exact streakInv_updateStreak s t y h

lemma streakInv_runOps (ops : List EngineOp) (s : GoalState)
    (h : streakInv s) : streakInv (runOps s ops) := by
  induction ops generalizing s with
  | nil => exact h
  | cons op t ih => exact ih _ (streakInv_engineStep s op h)

lemma updateStreak_same_day (s : GoalState) (t y y2 : String) :
    updateStreak (updateStreak s t y) t y2 = updateStreak s t y := by
  by_cases h : s.lastGoalMetDate = some t
  · simp [updateStreak, h]
  · simp [updateStreak, h]

-- ── Claim theorems ────────────────────────────────────────────────────

/-- C1: for a configured account and a target that parses to a hostname
outside the allow-lists, evaluateTab allows the navigation iff
goalMet OR bypassActive and redirects to the block page otherwise; with
no account configured every target is allowed. -/
theorem c1_blocking_policy (s : GoalState) (u : UrlInput) (now : Int)
    (host : String)
    (hu : s.leetcodeUsername ≠ "") (hraw : u.raw ≠ "")
    (hparse : u.parsed = some host)
    (hpre : ALLOWED_PREFIXES.any (fun p => strBeginsWith u.raw p) = false)
    (hhost : ALLOWED_HOSTNAMES.contains (stripWww host) = false) :
    (evaluateTab u s now = PolicyDecision.ALLOW ↔
       (goalMetPred s || bypassActive s now) = true)
    ∧ (evaluateTab u s now = PolicyDecision.REDIRECT_TO_BLOCK_PAGE ↔
       (goalMetPred s || bypassActive s now) = false)
    ∧ ∀ (s2 : GoalState) (u2 : UrlInput) (now2 : Int),
        s2.leetcodeUsername = "" →
          evaluateTab u2 s2 now2 = PolicyDecision.ALLOW := by
  have hhost2 : stripWww host ∉ ALLOWED_HOSTNAMES := by
    simpa using hhost
  have hall : isUrlAllowed u = false := by
    simp [isUrlAllowed, hraw, hpre, hparse, hhost2]
  refine ⟨?_, ?_, ?_⟩
  · cases h : goalMetPred s || bypassActive s now <;>
      simp [evaluateTab, hall, hu, h]
  · cases h : goalMetPred s || bypassActive s now <;>
      simp [evaluateTab, hall, hu, h]
  · intro s2 u2 now2 h2
    by_cases ha : isUrlAllowed u2 = true <;> simp [evaluateTab, ha, h2]

/-- Witness for C1 at a concrete blocked target: with the goal met the
navigation is allowed, and an unconfigured state allows it as well. -/
theorem c1_blocking_policy_witness :
    evaluateTab { raw := "https://example.com/", parsed := some "example.com" }
      exConfigured 0 = PolicyDecision.ALLOW
    ∧ evaluateTab { raw := "https://example.com/", parsed := some "example.com" }
      DEFAULTS 0 = PolicyDecision.ALLOW := by
  have h := c1_blocking_policy exConfigured
    { raw := "https://example.com/", parsed := some "example.com" } 0
    "example.com" (by decide) (by decide) rfl (by decide) (by decide)
  exact ⟨h.1.mpr (by decide), h.2.2 DEFAULTS _ 0 rfl⟩

/-- C2 counterexample: forceSync with local slugs a,b and remote slugs
b,c stores exactly the remote list, dropping the locally detected slug
a, so not every remote reconciliation merges. -/
theorem c2_sync_counterexample :
    "a" ∈ exLocalAB.solvedSlugs
    ∧ (forceSync exLocalAB none exRemoteBC "2026-10-11").solvedSlugs = ["b", "c"]
    ∧ "a" ∉ (forceSync exLocalAB none exRemoteBC "2026-10-11").solvedSlugs := by
  decide

/-- C2 amended: the debounced verification reconciliation
(verifySolveCount) merges rather than overwrites: the stored slug list
afterwards holds exactly remoteSlugs union local solvedSlugs and
solvesToday is the max of the remote count and the merged length. -/
theorem c2_verify_merges (s : GoalState) (r : RemoteResult) (today : String)
    (now : Int)
    (hu : s.leetcodeUsername ≠ "") (hp : canPollNow s now = true)
    (hl : r.loggedIn = true) :
    (∀ x, x ∈ (verifySolveCount s (some r) today now).solvedSlugs ↔
        x ∈ r.slugs ∨ x ∈ s.solvedSlugs)
    ∧ (verifySolveCount s (some r) today now).solvesToday =
        max r.count (verifySolveCount s (some r) today now).solvedSlugs.length := by
  constructor
  · intro x
    simp [verifySolveCount, hu, hp, hl, stampPollTime, mem_dedupJS,
      List.mem_append]
  · simp [verifySolveCount, hu, hp, hl, stampPollTime]

/-- Witness for C2 amended: local slugs a,b merged with remote b,c via
verifySolveCount yield the set a,b,c with solvesToday 3. -/
theorem c2_verify_merges_witness :
    ((verifySolveCount exLocalAB (some exRemoteBC) "2026-10-11" 400000).solvedSlugs.length = 3
    ∧ (verifySolveCount exLocalAB (some exRemoteBC) "2026-10-11" 400000).solvesToday = 3)
    ∧ ("a" ∈ (verifySolveCount exLocalAB (some exRemoteBC) "2026-10-11" 400000).solvedSlugs
    ∧ "b" ∈ (verifySolveCount exLocalAB (some exRemoteBC) "2026-10-11" 400000).solvedSlugs
    ∧ "c" ∈ (verifySolveCount exLocalAB (some exRemoteBC) "2026-10-11" 400000).solvedSlugs) := by
  have h := c2_verify_merges exLocalAB exRemoteBC "2026-10-11" 400000
    (by decide) (by decide) (by decide)
  refine ⟨⟨by decide, by decide⟩, ?_, ?_, ?_⟩
  · exact (h.1 "a").mpr (Or.inr (by decide))
  · exact (h.1 "b").mpr (Or.inl (by decide))
  · exact (h.1 "c").mpr (Or.inl (by decide))

/-- C3: a slug already in solvedSlugs is discarded, the whole state is
left unchanged; submitting two-sum twice from the default empty state
leaves solvesToday at 1. -/
theorem c3_idempotent_detection (s : GoalState) (slug today yesterday : String)
    (h : s.solvedSlugs.contains slug = true) :
    handleSolveDetected s slug today yesterday = s
    ∧ (handleSolveDetected
         (handleSolveDetected DEFAULTS "two-sum" today yesterday)
         "two-sum" today yesterday).solvesToday = 1 := by
  have hm : slug ∈ s.solvedSlugs := List.elem_iff.mp h
  constructor
  · simp [handleSolveDetected, hm]
  · simp [handleSolveDetected, checkAndHandleGoalMet, goalMetPred,
      updateStreak, DEFAULTS]

/-- Witness for C3: two-sum detected twice on a state that already holds
it changes nothing, and the double submission example gives count 1. -/
theorem c3_idempotent_detection_witness :
    exConfigured.solvedSlugs.contains "two-sum" = true
    ∧ handleSolveDetected exConfigured "two-sum" "2026-10-11" "2026-10-10"
        = exConfigured
    ∧ (handleSolveDetected
         (handleSolveDetected DEFAULTS "two-sum" "2026-10-11" "2026-10-10")
         "two-sum" "2026-10-11" "2026-10-10").solvesToday = 1 := by
  have h := c3_idempotent_detection exConfigured "two-sum" "2026-10-11"
    "2026-10-10" (by decide)
  exact ⟨by decide, h.1, h.2⟩

/-- C4: the GoalMet transition is a same-day no-op, otherwise it writes
today, takes the running max for longestStreak, increments the streak
after a yesterday goal-met and restarts it at 1 in every other case. -/
theorem c4_goalmet_transition (s : GoalState) (today yesterday : String) :
    (s.lastGoalMetDate = some today → updateStreak s today yesterday = s)
    ∧ (s.lastGoalMetDate ≠ some today →
        (updateStreak s today yesterday).lastGoalMetDate = some today
        ∧ (updateStreak s today yesterday).longestStreak =
            max s.longestStreak (updateStreak s today yesterday).currentStreak
        ∧ (s.lastGoalMetDate = some yesterday →
            (updateStreak s today yesterday).currentStreak = s.currentStreak + 1)
        ∧ (s.lastGoalMetDate ≠ some yesterday →
            (updateStreak s today yesterday).currentStreak = 1)) := by
  constructor
  · intro h
    simp [updateStreak, h]
  · intro h
    by_cases hy : s.lastGoalMetDate = some yesterday
    · have hyt : yesterday ≠ today := fun he => h (he ▸ hy)
      simp [updateStreak, h, hy, hyt, Nat.max_comm]
    · simp [updateStreak, h, hy, Nat.max_comm]

/-- Witness for C4: streak 4 with goal met yesterday advances to 5, and
a goal-met date two days back restarts the streak at 1. -/
theorem c4_goalmet_transition_witness :
    (updateStreak exStreak4 "2026-10-11" "2026-10-10").currentStreak = 5
    ∧ (updateStreak exStreakStale "2026-10-11" "2026-10-10").currentStreak = 1 := by
  have h4 := (c4_goalmet_transition exStreak4 "2026-10-11" "2026-10-10").2
    (by decide)
  have h1 := (c4_goalmet_transition exStreakStale "2026-10-11" "2026-10-10").2
    (by decide)
  exact ⟨h4.2.2.1 (by decide), h1.2.2.2 (by decide)⟩

/-- C5: a second bypass activation the same day fails with the reason
string and leaves the state untouched; a fresh activation succeeds,
marks the bypass used, sets the expiry three hours out, and the expiry
alarm clears only the expiry timestamp while bypassUsed stays true. -/
theorem c5_bypass_exclusivity (s : GoalState) (now : Int) :
    (s.bypassUsed = true →
       activateBypass s now =
         ({ success := false, reason := some "Already used today",
            expiresAt := none }, s))
    ∧ (s.bypassUsed = false →
       (activateBypass s now).1.success = true
       ∧ (activateBypass s now).2.bypassUsed = true
       ∧ (activateBypass s now).2.bypassExpiresAt = some (now + 3 * 60 * 60 * 1000)
       ∧ (bypassExpiryAlarm (activateBypass s now).2).bypassExpiresAt = none
       ∧ (bypassExpiryAlarm (activateBypass s now).2).bypassUsed = true) := by
  constructor
  · intro h
    simp [activateBypass, h]
  · intro h
    simp [activateBypass, bypassExpiryAlarm, h]

/-- Witness for C5: activating on a used-up state fails with the reason
string; activating on the default state succeeds and expires three
hours later. -/
theorem c5_bypass_exclusivity_witness :
    activateBypass exBypassUsed 0 =
      ({ success := false, reason := some "Already used today",
         expiresAt := none }, exBypassUsed)
    ∧ (activateBypass DEFAULTS 0).2.bypassExpiresAt = some (0 + 3 * 60 * 60 * 1000)
    ∧ (bypassExpiryAlarm (activateBypass DEFAULTS 0).2).bypassUsed = true := by
  have h1 := (c5_bypass_exclusivity exBypassUsed 0).1 (by decide)
  have h2 := (c5_bypass_exclusivity DEFAULTS 0).2 (by decide)
  exact ⟨h1, h2.2.2.1, h2.2.2.2.2⟩

/-- C6: the daily reset zeroes the daily fields (count, daily-solved
flag, bypass pair, slug list, poll date, daily-challenge identity) and
leaves the streak and configuration fields untouched. -/
theorem c6_daily_reset (s : GoalState) :
    (resetDailyState s).solvesToday = 0
    ∧ (resetDailyState s).dailySolved = false
    ∧ (resetDailyState s).bypassUsed = false
    ∧ (resetDailyState s).bypassExpiresAt = none
    ∧ (resetDailyState s).solvedSlugs = []
    ∧ (resetDailyState s).lastPollDate = none
    ∧ (resetDailyState s).dailySlug = none
    ∧ (resetDailyState s).dailyTitle = none
    ∧ (resetDailyState s).dailyLink = none
    ∧ (resetDailyState s).currentStreak = s.currentStreak
    ∧ (resetDailyState s).longestStreak = s.longestStreak
    ∧ (resetDailyState s).lastGoalMetDate = s.lastGoalMetDate
    ∧ (resetDailyState s).leetcodeUsername = s.leetcodeUsername
    ∧ (resetDailyState s).dailyGoal = s.dailyGoal
    ∧ (resetDailyState s).requireDaily = s.requireDaily
    ∧ (resetDailyState s).notifyOnComplete = s.notifyOnComplete := by
  simp [resetDailyState]

/-- C7: with the poll time stamped at the start of a first attempt, a
second background attempt inside the five-minute cooldown on the same
UTC day does nothing, a new UTC day always lets the query run, and any
attempt that runs writes the time stamp strictly before its network
calls and never afterwards. -/
theorem c7_poll_gate (s : GoalState) (today : String) (t1 t2 : Int) :
    (s.lastPollDate = some today → t2 - t1 < MIN_POLL_INTERVAL_MS →
       lazyPollTrace (stampPollTime s t1) today t2 = [])
    ∧ (s.leetcodeUsername ≠ "" → s.lastPollDate ≠ some today →
       lazyPollTrace (stampPollTime s t1) today t2 =
         [PollAction.stampTime t2, PollAction.fetchChallenge,
          PollAction.fetchSolves])
    ∧ (lazyPollTrace s today t1 = [] ∨
       ((lazyPollTrace s today t1).head? = some (PollAction.stampTime t1)
        ∧ ∀ u, PollAction.stampTime u ∉ (lazyPollTrace s today t1).tail)) := by
  refine ⟨?_, ?_, ?_⟩
  · intro hd hc
    have hrun : lazyPollRuns (stampPollTime s t1) today t2 = false := by
      by_cases husr : s.leetcodeUsername = ""
      · simp [lazyPollRuns, stampPollTime, canPollNow, husr, hd]
      · simp [lazyPollRuns, stampPollTime, canPollNow, husr, hd]
        omega
    simp [lazyPollTrace, hrun]
  · intro hu hd
    have hrun : lazyPollRuns (stampPollTime s t1) today t2 = true := by
      simp [lazyPollRuns, stampPollTime, canPollNow, hu, hd]
    simp [lazyPollTrace, hrun]
  · by_cases hrun : lazyPollRuns s today t1 = true
    · right
      simp [lazyPollTrace, hrun]
    · left
      simp [lazyPollTrace, hrun]

/-- Witness for C7: a second attempt one second after a stamped first
attempt on the same day is silent, a new-day attempt runs with the
stamp first, and the sample trace is stamp-then-fetches. -/
theorem c7_poll_gate_witness :
    lazyPollTrace (stampPollTime exPolled 1000) "2026-10-11" 2000 = []
    ∧ lazyPollTrace (stampPollTime exPolled 1000) "2026-10-12" 2000 =
        [PollAction.stampTime 2000, PollAction.fetchChallenge,
         PollAction.fetchSolves] := by
  have h1 := (c7_poll_gate exPolled "2026-10-11" 1000 2000).1 (by decide)
    (by decide)
  have h2 := (c7_poll_gate exPolled "2026-10-12" 1000 2000).2.1 (by decide)
    (by decide)
  exact ⟨h1, h2⟩

/-- C8: a target whose address does not parse as a structured URL is
always allowed, whatever the state and clock. -/
theorem c8_fail_open (s : GoalState) (raw : String) (now : Int) :
    evaluateTab { raw := raw, parsed := none } s now = PolicyDecision.ALLOW := by
  have h : isUrlAllowed { raw := raw, parsed := none } = true := by
    unfold isUrlAllowed
    split_ifs <;> rfl
  simp [evaluateTab, h]

/-- C9 counterexample: a rejected fetch (network error) also comes back
with loggedIn false as an ordinary return value, although it is not an
HTTP 401/403 rejection, so loggedIn:false is not reserved to the auth
case and non-auth failures are not thrown to the caller. -/
theorem c9_counterexample :
    ¬ (∀ (o : FetchOutcome) (d : String),
        (fetchTodaySolves o d).loggedIn = false ↔ isAuthRejection o = true) := by
  intro h
  have := (h FetchOutcome.networkError "2026-10-11").mp rfl
  simp [isAuthRejection] at this

/-- C9 amended: fetchTodaySolves never throws; it returns loggedIn false
exactly on an HTTP 401/403 rejection, a rejected fetch, or a body that
fails to parse, and every such failure yields count 0 and no slugs. -/
theorem c9_error_contract (o : FetchOutcome) (d : String) :
    ((fetchTodaySolves o d).loggedIn = false ↔
      (isAuthRejection o = true ∨ o = FetchOutcome.networkError
       ∨ ∃ st, o = FetchOutcome.httpResponse st none))
    ∧ ((fetchTodaySolves o d).loggedIn = false →
        fetchTodaySolves o d = { count := 0, slugs := [], loggedIn := false }) := by
  cases o with
  | networkError => simp [fetchTodaySolves, isAuthRejection]
  | httpResponse st body =>
    cases body with
    | none =>
      by_cases hst : (st == 403 || st == 401) = true <;>
        simp [fetchTodaySolves, isAuthRejection, hst]
    | some l =>
      by_cases hst : (st == 403 || st == 401) = true <;>
        simp [fetchTodaySolves, isAuthRejection, hst]

/-- Witness for C9 amended: an HTTP 401 response with an unparseable
body is an auth rejection and resolves to the zero record with loggedIn
false. -/
theorem c9_error_contract_witness :
    fetchTodaySolves (FetchOutcome.httpResponse 401 none) "2026-10-11" =
      { count := 0, slugs := [], loggedIn := false }
    ∧ (isAuthRejection (FetchOutcome.httpResponse 401 none) = true
       ∨ FetchOutcome.httpResponse 401 none = FetchOutcome.networkError
       ∨ ∃ st, FetchOutcome.httpResponse 401 none =
           FetchOutcome.httpResponse st none) := by
  have h := c9_error_contract (FetchOutcome.httpResponse 401 none) "2026-10-11"
  exact ⟨h.2 (by decide), h.1.mp (by decide)⟩

/-- C10: from the install defaults, every sequence of engine operations
keeps longestStreak at or above currentStreak, and the GoalMet
transition touches lastGoalMetDate at most once per day: a same-day
second run changes nothing, and any run either records today or is a
no-op. -/
theorem c10_streak_invariants :
    (∀ ops : List EngineOp, streakInv (runOps DEFAULTS ops))
    ∧ (∀ (s : GoalState) (t y y2 : String),
        updateStreak (updateStreak s t y) t y2 = updateStreak s t y)
    ∧ (∀ (s : GoalState) (t y : String),
        (updateStreak s t y).lastGoalMetDate = some t
        ∨ updateStreak s t y = s) := by
  refine ⟨fun ops => streakInv_runOps ops DEFAULTS (Nat.le_refl 0),
    fun s t y y2 => updateStreak_same_day s t y y2, fun s t y => ?_⟩
  by_cases h : s.lastGoalMetDate = some t
  · exact Or.inr (by simp [updateStreak, h])
  · exact Or.inl (by simp [updateStreak, h])

end LCForcer
